import Mathlib

/-!
Verification of the mcp-crawl4ai server (src/server.py) against its
natural-language specification.

The embedding models the Python module shallowly:
  - JSON values are an inductive type; Python dicts keep insertion order.
  - The external crawling engine is a parameter; a call that may raise a
    Python exception is modelled as a value in `Except String`.
  - Machine-level pieces of the standard library that the code calls
    (hashlib.md5, urllib.parse.urlparse(..).netloc, str.encode) are
    implemented as executable functions.
  - The two crawl loops (simple_deep_crawl and the inline loop of
    deep_crawl) are step functions iterated with fuel; their intermediate
    states are exactly the states of the Python while-loops.
-/

set_option maxRecDepth 100000

namespace MCP

/-- JSON values as produced by the json module; objects keep key order. -/
inductive Json where
  | null : Json
  | bool : Bool → Json
  | num : Nat → Json
  | str : String → Json
  | arr : List Json → Json
  | obj : List (String × Json) → Json

/-- Python dict lookup d.get(k): first binding of the key. -/
def dictGet (k : String) : List (String × α) → Option α
  | [] => none
  | (k1, v) :: rest => if k1 = k then some v else dictGet k rest

/-- Python dict lookup with a default, d.get(k, dflt). -/
def dictGetD (k : String) (dflt : α) (l : List (String × α)) : α :=
  (dictGet k l).getD dflt

/-- Python dict assignment d[k] = v: replace in place or append. -/
def dictInsert (k : String) (v : α) : List (String × α) → List (String × α)
  | [] => [(k, v)]
  | (k1, v1) :: rest =>
    if k1 = k then (k, v) :: rest else (k1, v1) :: dictInsert k v rest

/-- Field access on a JSON object. -/
def Json.lookup (j : Json) (k : String) : Option Json :=
  match j with
  | .obj fields => dictGet k fields
  | _ => none

/-- Python truthiness of an optional string: None and "" are falsy. -/
def pyTruthy : Option String → Bool
  | none => false
  | some s => s ≠ ""

/-- Python `x or dflt` for an optional string x. -/
def pyOr (x : Option String) (dflt : String) : String :=
  match x with
  | none => dflt
  | some s => if s = "" then dflt else s

/-- Python string slicing s[:n]: the first n characters (code points). -/
def strTake (s : String) (n : Nat) : String :=
  String.mk (s.data.take n)

/-! Model of urllib.parse.urlparse(url).netloc, as used by the domain
filter of simple_deep_crawl: strip a leading "scheme:" when the prefix
before the first colon is a valid scheme, then, when the remainder starts
with "//", the netloc is everything up to the next '/', '?' or '#'. -/

def isSchemeChar (c : Char) : Bool :=
  c.isAlpha || c.isDigit || c = '+' || c = '-' || c = '.'

def headIsAlpha : List Char → Bool
  | [] => false
  | c :: _ => c.isAlpha

def stripScheme (cs : List Char) : List Char :=
  let pre := cs.takeWhile (fun c => c ≠ ':')
  if pre.length < cs.length && !pre.isEmpty && headIsAlpha pre &&
      pre.all isSchemeChar then
    cs.drop (pre.length + 1)
  else cs

def netloc (url : String) : String :=
  match stripScheme url.data with
  | '/' :: '/' :: rest =>
    String.mk (rest.takeWhile (fun c => c ≠ '/' && c ≠ '?' && c ≠ '#'))
  | _ => ""

/-! Model of str.encode() (UTF-8) and hashlib.md5(..).hexdigest(), the
two standard-library calls inside generate_content_hash. -/

/-- UTF-8 encoding of one character, as byte values. -/
def utf8Char (c : Char) : List Nat :=
  let n := c.toNat
  if n < 0x80 then [n]
  else if n < 0x800 then [0xC0 + n / 0x40, 0x80 + n % 0x40]
  else if n < 0x10000 then
    [0xE0 + n / 0x1000, 0x80 + n / 0x40 % 0x40, 0x80 + n % 0x40]
  else
    [0xF0 + n / 0x40000, 0x80 + n / 0x1000 % 0x40,
     0x80 + n / 0x40 % 0x40, 0x80 + n % 0x40]

def utf8Bytes (s : String) : List Nat :=
  (s.data.map utf8Char).flatten

/-- Reduction modulo 2^32, the word size of MD5. -/
def w32 (n : Nat) : Nat := n % 4294967296

/-- Left rotation of a 32-bit word. -/
def rotl32 (x s : Nat) : Nat :=
  w32 (x * 2 ^ s + x / 2 ^ (32 - s))

/-- The 64 MD5 sine-derived constants of RFC 1321. -/
def md5K : List Nat :=
  [0xd76aa478, 0xe8c7b756, 0x242070db, 0xc1bdceee,
   0xf57c0faf, 0x4787c62a, 0xa8304613, 0xfd469501,
   0x698098d8, 0x8b44f7af, 0xffff5bb1, 0x895cd7be,
   0x6b901122, 0xfd987193, 0xa679438e, 0x49b40821,
   0xf61e2562, 0xc040b340, 0x265e5a51, 0xe9b6c7aa,
   0xd62f105d, 0x02441453, 0xd8a1e681, 0xe7d3fbc8,
   0x21e1cde6, 0xc33707d6, 0xf4d50d87, 0x455a14ed,
   0xa9e3e905, 0xfcefa3f8, 0x676f02d9, 0x8d2a4c8a,
   0xfffa3942, 0x8771f681, 0x6d9d6122, 0xfde5380c,
   0xa4beea44, 0x4bdecfa9, 0xf6bb4b60, 0xbebfbc70,
   0x289b7ec6, 0xeaa127fa, 0xd4ef3085, 0x04881d05,
   0xd9d4d039, 0xe6db99e5, 0x1fa27cf8, 0xc4ac5665,
   0xf4292244, 0x432aff97, 0xab9423a7, 0xfc93a039,
   0x655b59c3, 0x8f0ccc92, 0xffeff47d, 0x85845dd1,
   0x6fa87e4f, 0xfe2ce6e0, 0xa3014314, 0x4e0811a1,
   0xf7537e82, 0xbd3af235, 0x2ad7d2bb, 0xeb86d391]

/-- The per-round left-rotation amounts of MD5. -/
def md5S : List Nat :=
  [7, 12, 17, 22, 7, 12, 17, 22, 7, 12, 17, 22, 7, 12, 17, 22,
   5, 9, 14, 20, 5, 9, 14, 20, 5, 9, 14, 20, 5, 9, 14, 20,
   4, 11, 16, 23, 4, 11, 16, 23, 4, 11, 16, 23, 4, 11, 16, 23,
   6, 10, 15, 21, 6, 10, 15, 21, 6, 10, 15, 21, 6, 10, 15, 21]

structure MD5State where
  a : Nat
  b : Nat
  c : Nat
  d : Nat

/-- Round function and message index of round i. -/
def md5F (i b c d : Nat) : Nat × Nat :=
  if i < 16 then ((b &&& c) ||| ((b ^^^ 0xFFFFFFFF) &&& d), i)
  else if i < 32 then ((d &&& b) ||| ((d ^^^ 0xFFFFFFFF) &&& c), (5 * i + 1) % 16)
  else if i < 48 then (b ^^^ c ^^^ d, (3 * i + 5) % 16)
  else (c ^^^ (b ||| (d ^^^ 0xFFFFFFFF)), (7 * i) % 16)

def md5Round (M : List Nat) (st : MD5State) (i : Nat) : MD5State :=
  let fg := md5F i st.b st.c st.d
  let f := w32 (fg.1 + st.a + md5K.getD i 0 + M.getD fg.2 0)
  ⟨st.d, w32 (st.b + rotl32 f (md5S.getD i 0)), st.b, st.c⟩

def md5Chunk (st : MD5State) (M : List Nat) : MD5State :=
  let r := (List.range 64).foldl (md5Round M) st
  ⟨w32 (st.a + r.a), w32 (st.b + r.b), w32 (st.c + r.c), w32 (st.d + r.d)⟩

/-- k bytes of n, little-endian. -/
def leBytes : Nat → Nat → List Nat
  | 0, _ => []
  | k + 1, n => n % 256 :: leBytes k (n / 256)

/-- MD5 padding: 0x80, zeros to 56 mod 64, then the bit length in 8
little-endian bytes. -/
def md5Pad (msg : List Nat) : List Nat :=
  let padZeros := (64 + 56 - (msg.length + 1) % 64) % 64
  msg ++ [0x80] ++ List.replicate padZeros 0 ++ leBytes 8 (msg.length * 8)

/-- Split into 64-byte chunks; the fuel is an upper bound on the length. -/
def toChunks : Nat → List Nat → List (List Nat)
  | 0, _ => []
  | _ + 1, [] => []
  | n + 1, l => l.take 64 :: toChunks n (l.drop 64)

/-- Group bytes into 32-bit words, little-endian. -/
def leWords : List Nat → List Nat
  | b0 :: b1 :: b2 :: b3 :: rest =>
    (b0 + 256 * b1 + 65536 * b2 + 16777216 * b3) :: leWords rest
  | _ => []

def md5Init : MD5State := ⟨0x67452301, 0xefcdab89, 0x98badcfe, 0x10325476⟩

def md5Digest (msg : List Nat) : List Nat :=
  let padded := md5Pad msg
  let fin := (toChunks padded.length padded).foldl
    (fun st ch => md5Chunk st (leWords ch)) md5Init
  leBytes 4 fin.a ++ leBytes 4 fin.b ++ leBytes 4 fin.c ++ leBytes 4 fin.d

def hexDigit (n : Nat) : Char :=
  if n < 10 then Char.ofNat (48 + n) else Char.ofNat (87 + n)

def byteHex (b : Nat) : List Char := [hexDigit (b / 16), hexDigit (b % 16)]

/-- hashlib.md5(bs).hexdigest() for a byte list bs. -/
def bytesToHex (bs : List Nat) : String := String.mk (bs.map byteHex).flatten

/-- hashlib.md5(s.encode()).hexdigest() for a string s. -/
def md5Hex (s : String) : String := bytesToHex (md5Digest (utf8Bytes s))

/-- src/server.py generate_content_hash: the first 12 hex characters of
the MD5 digest of the UTF-8 encoding of the content string. -/
def generate_content_hash (content : String) : String :=
  strTake (md5Hex content) 12

/-! Data model of the external engine's CrawlResult, with exactly the
attributes src/server.py reads. Optional-string attributes that the code
tests for truthiness (screenshot_data, pdf_data, html) are strings where
"" plays the role of both None and the empty value, which the code never
distinguishes. asStr is the str() rendering used by save_crawled_content
for hashing. -/

/-- One entry of result.links["internal"/"external"]: a dict carrying at
least an "href" key (possibly ""). -/
structure Link where
  href : String

structure EngineResult where
  success : Bool
  error_message : Option String
  markdown : String
  html : String
  media : List (String × Json)
  links_internal : List Link
  links_external : List Link
  metadata : List (String × Json)
  screenshot_data : String
  pdf_data : String
  extracted_content : Json
  url : String
  has_content_filter_results : Bool
  content_filter_results : Json
  asStr : String

/-- A call into the engine (crawler.arun and similar): it either returns
a CrawlResult or raises, modelled as Except. -/
def Engine := String → Except String EngineResult

/-! ContentStore: context.crawled_data (an insertion-ordered dict) plus
the on-disk cache directory. The disk is modelled by two parameters: a
write operation that may raise, and a read map from content id to the
JSON-decoded file when <id>.json exists. A file decoded from disk holds
the str()-serialized content (json.dump ran with default=str), so the
loaded "content" value is a plain string with no CrawlResult attributes. -/

inductive StoredContent where
  | res : EngineResult → StoredContent
  | plain : String → StoredContent

structure StoreEntry where
  url : String
  content : StoredContent
  timestamp : Nat

def Store := List (String × StoreEntry)

/-- Disk write of <id>.json: ok, or raises with a message. -/
def DiskWrite := String → Except String Unit

/-- Disk read: none when <id>.json does not exist; some (.error e) when
the file exists but opening or decoding it raises; some (.ok e) when it
loads. -/
def DiskRead := String → Option (Except String StoreEntry)

/-- src/server.py save_crawled_content: hash the str() of the content,
store the entry in the in-memory dict, then write <id>.json to the cache
directory. The disk write is NOT guarded by try/except: when it raises,
the exception propagates to the caller, while the dict keeps the entry
(the mutation happened before the write). The returned store is the
final state of context.crawled_data, the Except the call's outcome. -/
def save_crawled_content (dw : DiskWrite) (store : Store) (url : String)
    (content : EngineResult) (ts : Nat) : Store × Except String String :=
  let content_id := generate_content_hash content.asStr
  let store1 := dictInsert content_id ⟨url, .res content, ts⟩ store
  match dw content_id with
  | .ok _ => (store1, .ok content_id)
  | .error e => (store1, .error e)

/-- The handler boundary: try/except Exception converting any raised
exception into the structured JSON error envelope. -/
def pyExcept (body : Except String Json) : Json :=
  match body with
  | .ok j => j
  | .error e => .obj [("success", .bool false), ("error", .str e)]

/-- Response fields shared by get_crawled_content: attribute access on
the stored content with hasattr guards. -/
def contentMarkdown : StoredContent → String
  | .res r => r.markdown
  | .plain _ => ""

def contentMetadata : StoredContent → List (String × Json)
  | .res r => r.metadata
  | .plain _ => []

def contentMedia : StoredContent → List (String × Json)
  | .res r => r.media
  | .plain _ => []

def contentHasHtml : StoredContent → Bool
  | .res _ => true
  | .plain _ => false

def contentHtml : StoredContent → String
  | .res r => r.html
  | .plain _ => ""

def contentHasScreenshot : StoredContent → Bool
  | .res _ => true
  | .plain _ => false

def contentScreenshot : StoredContent → String
  | .res r => r.screenshot_data
  | .plain _ => ""

/-- src/server.py get_crawled_content: memory first; on a miss, load
<content_id>.json from the cache directory into memory; when neither
exists, return the not-found error envelope. Returns the final state of
context.crawled_data together with the response JSON. -/
def get_crawled_content (store : Store) (dr : DiskRead) (content_id : String)
    (include_html include_screenshot : Bool) : Store × Json :=
  let fetched : Except String (Option (Store × StoreEntry)) :=
    match dictGet content_id store with
    | some e => .ok (some (store, e))
    | none =>
      match dr content_id with
      | some (.ok e) => .ok (some (dictInsert content_id e store, e))
      | some (.error ex) => .error ex
      | none => .ok none
  match fetched with
  | .error ex =>
    (store, pyExcept (.error ex))
  | .ok none =>
    (store, .obj [("success", .bool false),
      ("error", .str ("Content ID " ++ content_id ++ " not found"))])
  | .ok (some (store1, data)) =>
    let result := data.content
    let response : List (String × Json) :=
      [("success", .bool true),
       ("content_id", .str content_id),
       ("url", .str data.url),
       ("markdown", .str (contentMarkdown result)),
       ("metadata", .obj (contentMetadata result)),
       ("media", .obj (contentMedia result))]
    let response := if include_html && contentHasHtml result then
        response ++ [("html", .str (contentHtml result))] else response
    let response := if include_screenshot && contentHasScreenshot result then
        response ++ [("screenshot_data", .str (contentScreenshot result))]
      else response
    (store1, .obj response)

/-! FallbackTraversal: the state of the while-loop of simple_deep_crawl
(src/server.py lines 507-547) and of the inline loop of deep_crawl
(lines 634-671). engine_log is a ghost observation sequence: the urls
passed to crawler.arun, in call order; it changes exactly when the code
calls the engine and carries no other information. -/

structure CrawlEntry where
  url : String
  depth : Nat
  content_id : String
  title : Json
  links_found : Nat

structure TravState where
  crawled_urls : List CrawlEntry
  visited : List String
  to_visit : List (String × Nat)
  store : Store
  engine_log : List String

def initState (start_url : String) (store : Store) : TravState :=
  ⟨[], [], [(start_url, 0)], store, []⟩

/-- Push loop of simple_deep_crawl (lines 544-547): append each internal
link with a non-empty href that is not yet visited. -/
def pushLinksBfs (links : List Link) (visited : List String) (d : Nat)
    (tv : List (String × Nat)) : List (String × Nat) :=
  links.foldl (fun acc link =>
    if link.href ≠ "" ∧ link.href ∉ visited then acc ++ [(link.href, d)]
    else acc) tv

/-- Push loop of deep_crawl (lines 665-671): per link, insert at index 0
when the strategy string is "dfs", append otherwise. -/
def pushLinksStrategy (strategy : String) (links : List Link)
    (visited : List String) (d : Nat) (tv : List (String × Nat)) :
    List (String × Nat) :=
  links.foldl (fun acc link =>
    if link.href ≠ "" ∧ link.href ∉ visited then
      if strategy = "dfs" then (link.href, d) :: acc else acc ++ [(link.href, d)]
    else acc) tv

/-- One iteration of the simple_deep_crawl while-loop: pop the frontier
head; skip it when visited, too deep, or (with a non-empty allowed set)
out of domain; otherwise mark visited, call the engine, and on a
successful result save the content, record the entry and push the
internal links at depth + 1. Engine or disk-write exceptions propagate. -/
def simpleStep (engine : Engine) (dw : DiskWrite) (maxDepth : Nat)
    (allowed : List String) (ts : Nat) (st : TravState) :
    Except String TravState :=
  match st.to_visit with
  | [] => .ok st
  | (url, depth) :: rest =>
    if url ∈ st.visited ∨ depth > maxDepth then
      .ok { st with to_visit := rest }
    else if allowed ≠ [] ∧ netloc url ∉ allowed then
      .ok { st with to_visit := rest }
    else
      let visited1 := url :: st.visited
      match engine url with
      | .error e => .error e
      | .ok result =>
        let st1 := { st with
          visited := visited1
          to_visit := rest
          engine_log := st.engine_log ++ [url] }
        if result.success then
          match save_crawled_content dw st1.store url result ts with
          | (_, .error e) => .error e
          | (store1, .ok content_id) =>
            let entry : CrawlEntry :=
              ⟨url, depth, content_id,
               dictGetD "title" (.str "") result.metadata,
               result.links_internal.length⟩
            .ok { st1 with
              store := store1
              crawled_urls := st1.crawled_urls ++ [entry]
              to_visit := pushLinksBfs result.links_internal visited1
                (depth + 1) rest }
        else
          .ok st1

/-- One iteration of the inline loop of deep_crawl: as simpleStep but
with no domain filter and with the strategy-directed push. -/
def deepStep (engine : Engine) (dw : DiskWrite) (maxDepth : Nat)
    (strategy : String) (ts : Nat) (st : TravState) :
    Except String TravState :=
  match st.to_visit with
  | [] => .ok st
  | (url, depth) :: rest =>
    if url ∈ st.visited ∨ depth > maxDepth then
      .ok { st with to_visit := rest }
    else
      let visited1 := url :: st.visited
      match engine url with
      | .error e => .error e
      | .ok result =>
        let st1 := { st with
          visited := visited1
          to_visit := rest
          engine_log := st.engine_log ++ [url] }
        if result.success then
          match save_crawled_content dw st1.store url result ts with
          | (_, .error e) => .error e
          | (store1, .ok content_id) =>
            let entry : CrawlEntry :=
              ⟨url, depth, content_id,
               dictGetD "title" (.str "") result.metadata,
               result.links_internal.length⟩
            .ok { st1 with
              store := store1
              crawled_urls := st1.crawled_urls ++ [entry]
              to_visit := pushLinksStrategy strategy result.links_internal
                visited1 (depth + 1) rest }
        else
          .ok st1

/-- While-loop of simple_deep_crawl, iterated with fuel: stop when the
frontier is empty or max_pages entries were crawled. -/
def simpleRun (engine : Engine) (dw : DiskWrite) (maxDepth maxPages : Nat)
    (allowed : List String) (ts : Nat) :
    Nat → TravState → Except String TravState
  | 0, st => .ok st
  | n + 1, st =>
    if st.to_visit ≠ [] ∧ st.crawled_urls.length < maxPages then
      match simpleStep engine dw maxDepth allowed ts st with
      | .error e => .error e
      | .ok st1 => simpleRun engine dw maxDepth maxPages allowed ts n st1
    else .ok st

/-- While-loop of deep_crawl, iterated with fuel. -/
def deepRun (engine : Engine) (dw : DiskWrite) (maxDepth maxPages : Nat)
    (strategy : String) (ts : Nat) :
    Nat → TravState → Except String TravState
  | 0, st => .ok st
  | n + 1, st =>
    if st.to_visit ≠ [] ∧ st.crawled_urls.length < maxPages then
      match deepStep engine dw maxDepth strategy ts st with
      | .error e => .error e
      | .ok st1 => deepRun engine dw maxDepth maxPages strategy ts n st1
    else .ok st

def entryJson (e : CrawlEntry) : Json :=
  .obj [("url", .str e.url), ("depth", .num e.depth),
        ("content_id", .str e.content_id), ("title", e.title),
        ("links_found", .num e.links_found)]

/-- max(c["depth"] for c in crawled_urls) if crawled_urls else 0. -/
def maxDepthReached (l : List CrawlEntry) : Nat :=
  if l.isEmpty then 0 else (l.map (fun e => e.depth)).foldl max 0

def crawlSummary (strategyName : String) (start_url : String)
    (st : TravState) : Json :=
  .obj [("success", .bool true), ("start_url", .str start_url),
        ("strategy", .str strategyName),
        ("pages_crawled", .num st.crawled_urls.length),
        ("max_depth_reached", .num (maxDepthReached st.crawled_urls)),
        ("results", .arr (st.crawled_urls.map entryJson))]

/-- src/server.py simple_deep_crawl: run the fallback loop from the
start url and report the summary JSON. Returns none when the fuel does
not cover the number of loop iterations. -/
def simple_deep_crawl (engine : Engine) (dw : DiskWrite) (store : Store)
    (start_url : String) (maxDepth maxPages : Nat) (allowed : List String)
    (ts fuel : Nat) : Option (Except String Json) :=
  match simpleRun engine dw maxDepth maxPages allowed ts fuel
      (initState start_url store) with
  | .error e => some (.error e)
  | .ok st =>
    if st.to_visit ≠ [] ∧ st.crawled_urls.length < maxPages then none
    else some (.ok (crawlSummary "simple_bfs" start_url st))

/-! deep_crawl routing (lines 586-625): when the deep-crawling imports
are unavailable, delegate to simple_deep_crawl; otherwise construct a
strategy object with filters - and then run the inline loop, which does
not consult the constructed object. -/

inductive StrategyKind where
  | bfs : StrategyKind
  | dfs : StrategyKind
  | bestFirst : List String → StrategyKind

inductive FilterSpec where
  | domain : List String → FilterSpec
  | excludePat : String → FilterSpec
  | includePat : String → FilterSpec

structure CrawlStrategySpec where
  kind : StrategyKind
  maxDepth : Nat
  maxPages : Nat
  filters : List FilterSpec

/-- Lines 594-625: select DFS for "dfs", BestFirst for "best_first" with
a truthy keyword list, BFS otherwise; then add a DomainFilter for a
truthy allowed_domains and one URLPatternFilter per exclude/include
pattern. -/
def build_strategy (strategy : String) (keyword_focus : List String)
    (maxDepth maxPages : Nat) (allowed excl incl : List String) :
    CrawlStrategySpec :=
  let kind : StrategyKind :=
    if strategy = "dfs" then .dfs
    else if strategy = "best_first" ∧ keyword_focus ≠ [] then
      .bestFirst keyword_focus
    else .bfs
  let filters : List FilterSpec :=
    (if allowed ≠ [] then [FilterSpec.domain allowed] else [])
      ++ excl.map FilterSpec.excludePat ++ incl.map FilterSpec.includePat
  ⟨kind, maxDepth, maxPages, filters⟩

/-- Modelled from the spec: the semantics of the library's deep-crawl
filters, which src/server.py only constructs (crawl4ai.deep_crawling is
external). The spec says a DomainFilter "excludes any URL whose domain is
not in the set"; URLPatternFilter matching is abstracted by a pattern
matcher parameter. -/
def filterAdmits (pmatch : String → String → Bool) :
    FilterSpec → String → Bool
  | .domain allowed, url => allowed.contains (netloc url)
  | .excludePat p, url => !pmatch p url
  | .includePat p, url => pmatch p url

/-- Modelled from the spec: a URL is admitted by the constructed strategy
when every attached filter admits it. -/
def strategyAdmits (pmatch : String → String → Bool)
    (strat : CrawlStrategySpec) (url : String) : Bool :=
  strat.filters.all (fun f => filterAdmits pmatch f url)

/-- src/server.py deep_crawl: the tool handler. When available is false
it returns the simple_deep_crawl result; otherwise it builds the strategy
object (bound but never used afterwards, exactly as in the source) and
runs the inline loop. Exceptions become the error envelope; none means
the fuel ran out. -/
def deep_crawl (available : Bool) (engine : Engine) (dw : DiskWrite)
    (store : Store) (start_url : String) (maxDepth maxPages : Nat)
    (strategy : String) (allowed excl incl keyword_focus : List String)
    (ts fuel : Nat) : Option Json :=
  if !available then
    (simple_deep_crawl engine dw store start_url maxDepth maxPages allowed
      ts fuel).map pyExcept
  else
    let _strat := build_strategy strategy keyword_focus maxDepth maxPages
      allowed excl incl
    match deepRun engine dw maxDepth maxPages strategy ts fuel
        (initState start_url store) with
    | .error e => some (pyExcept (.error e))
    | .ok st =>
      if st.to_visit ≠ [] ∧ st.crawled_urls.length < maxPages then none
      else some (crawlSummary strategy start_url st)

/-! The remaining tool handlers, each at the level of the JSON envelope
it returns. Run-configuration objects, login scripts and extraction or
filter strategies built inside a handler only feed the engine call and
are abstracted by the engine parameter; every value that reaches the
response JSON is modelled. -/

/-- result.metadata.get("title", ""). -/
def titleOf (r : EngineResult) : Json :=
  dictGetD "title" (.str "") r.metadata

/-- len(result.markdown) if result.markdown else 0. -/
def contentLength (r : EngineResult) : Nat :=
  if r.markdown ≠ "" then r.markdown.length else 0

/-- Line 234: result.markdown[:1000] + "..." if len(result.markdown) >
1000 else result.markdown. -/
def markdownPreview (md : String) : String :=
  if md.length > 1000 then strTake md 1000 ++ "..." else md

def optStrJson : Option String → Json
  | none => .null
  | some s => .str s

/-- src/server.py crawl_url (lines 113-262). The parameters that shape
the response are the url, the screenshot and pdf flags and the engine
outcome; the login-script and run-configuration construction (lines
158-216) feeds only the engine call. -/
def crawl_url (engine : Engine) (dw : DiskWrite) (store : Store)
    (url : String) (screenshot pdf : Bool) (ts : Nat) : Json :=
  pyExcept (do
    let result ← engine url
    if result.success then
      let saved := save_crawled_content dw store url result ts
      let content_id ← saved.2
      let response : List (String × Json) :=
        [("success", .bool true),
         ("content_id", .str content_id),
         ("url", .str url),
         ("title", titleOf result),
         ("markdown", .str (markdownPreview result.markdown)),
         ("html_length", .num (if result.html ≠ "" then result.html.length else 0)),
         ("markdown_length", .num (contentLength result)),
         ("media", if result.media.isEmpty then .obj [] else .obj result.media),
         ("links", .obj [("internal", .num result.links_internal.length),
                         ("external", .num result.links_external.length)]),
         ("metadata", .obj result.metadata)]
      let response := if screenshot && result.screenshot_data ≠ "" then
          response ++ [("screenshot_available", .bool true)] else response
      let response := if pdf && result.pdf_data ≠ "" then
          response ++ [("pdf_available", .bool true)] else response
      pure (.obj response)
    else
      pure (.obj [("success", .bool false),
        ("error", .str (pyOr result.error_message "Crawl failed"))]))

/-- src/server.py crawl_with_auth (lines 264-418). -/
def crawl_with_auth (engine : Engine) (dw : DiskWrite) (store : Store)
    (url : String) (ts : Nat) : Json :=
  pyExcept (do
    let result ← engine url
    if result.success then
      let saved := save_crawled_content dw store url result ts
      let content_id ← saved.2
      pure (.obj [("success", .bool true), ("url", .str url),
        ("authenticated", .bool true), ("content_id", .str content_id),
        ("title", titleOf result),
        ("content_length", .num (contentLength result)),
        ("screenshot_taken", .bool (result.screenshot_data ≠ "")),
        ("message", .str "Successfully crawled with authentication")])
    else
      pure (.obj [("success", .bool false),
        ("error", .str (pyOr result.error_message "Authentication crawl failed")),
        ("tip", .str "Check login credentials and selectors")]))

/-- r["success"] for an entry of crawl_results (always a JSON bool). -/
def jsonSuccessIsTrue (j : Json) : Bool :=
  match j.lookup "success" with
  | some (.bool b) => b
  | _ => false

/-- Per-result loop body of batch_crawl (lines 462-483), threading the
store through the saves; a disk-write exception propagates. -/
def batchItem (dw : DiskWrite) (ts : Nat) (acc : Store × List Json)
    (result : EngineResult) : Except String (Store × List Json) :=
  if result.success then
    match save_crawled_content dw acc.1 result.url result ts with
    | (_, .error e) => .error e
    | (store1, .ok content_id) =>
      .ok (store1, acc.2 ++ [.obj [("url", .str result.url),
        ("success", .bool true), ("content_id", .str content_id),
        ("title", titleOf result),
        ("content_length", .num (contentLength result))]])
  else
    .ok (acc.1, acc.2 ++ [.obj [("url", .str result.url),
      ("success", .bool false),
      ("error", optStrJson result.error_message)]])

/-- src/server.py batch_crawl (lines 420-497): engineMany models
crawler.arun_many over the given urls (the dispatcher is external). -/
def batch_crawl (engineMany : Except String (List EngineResult))
    (dw : DiskWrite) (store : Store) (urls : List String) (ts : Nat) : Json :=
  pyExcept (do
    let results ← engineMany
    let acc ← results.foldlM (batchItem dw ts) (store, [])
    let crawl_results := acc.2
    pure (.obj [("success", .bool true),
      ("total_urls", .num urls.length),
      ("successful", .num (crawl_results.countP jsonSuccessIsTrue)),
      ("failed", .num (crawl_results.countP (fun j => !jsonSuccessIsTrue j))),
      ("results", .arr crawl_results)]))

/-- src/server.py extract_structured_data (lines 690-749). -/
def extract_structured_data (engine : Engine) (url : String)
    (extraction_type : String) : Json :=
  pyExcept (do
    if extraction_type = "json_css" then
      let result ← engine url
      if result.success then
        pure (.obj [("success", .bool true), ("url", .str url),
          ("extracted_data", result.extracted_content),
          ("extraction_type", .str extraction_type)])
      else
        pure (.obj [("success", .bool false),
          ("error", .str (pyOr result.error_message "Extraction failed"))])
    else
      pure (.obj [("success", .bool false),
        ("error", .str ("Unknown extraction type: " ++ extraction_type))]))

/-- Crawl-and-respond part of extract_with_llm (lines 784-821), reached
once an API key is available. -/
def extract_with_llm_main (engine : Engine) (dw : DiskWrite) (store : Store)
    (url : String) (model : String) (ts : Nat) : Except String Json := do
  let result ← engine url
  if result.success then
    let saved := save_crawled_content dw store url result ts
    let content_id ← saved.2
    pure (.obj [("success", .bool true), ("url", .str url),
      ("content_id", .str content_id),
      ("extracted_content", result.extracted_content),
      ("model_used", .str model)])
  else
    pure (.obj [("success", .bool false),
      ("error", .str (pyOr result.error_message "LLM extraction failed"))])

/-- src/server.py extract_with_llm (lines 751-827): env_api_key models
os.getenv("OPENAI_API_KEY"); the argument falls back to it when falsy,
and a still-falsy key short-circuits into the error envelope. -/
def extract_with_llm (engine : Engine) (dw : DiskWrite) (store : Store)
    (url : String) (model : String) (api_key env_api_key : Option String)
    (ts : Nat) : Json :=
  pyExcept (
    let key := if pyTruthy api_key then api_key else env_api_key
    if !pyTruthy key then
      .ok (.obj [("success", .bool false),
        ("error", .str "API key required for LLM extraction")])
    else extract_with_llm_main engine dw store url model ts)

/-- Crawl-and-respond part of crawl_with_filter (lines 883-909), shared
by every branch of the filter-choice chain that reaches the engine. -/
def crawl_with_filter_main (engine : Engine) (dw : DiskWrite) (store : Store)
    (url : String) (filter_type : String) (ts : Nat) : Except String Json := do
  let result ← engine url
  if result.success then
    let saved := save_crawled_content dw store url result ts
    let content_id ← saved.2
    pure (.obj [("success", .bool true), ("url", .str url),
      ("content_id", .str content_id),
      ("filter_type", .str filter_type),
      ("content_length", .num (contentLength result)),
      ("filtered", if result.has_content_filter_results then
          result.content_filter_results else .null)])
  else
    pure (.obj [("success", .bool false),
      ("error", .str (pyOr result.error_message "Filtered crawl failed"))])

/-- src/server.py crawl_with_filter (lines 831-915): the filter-choice
chain of lines 857-881, whose only response-visible effect is the early
missing-key return of the "llm" branch. -/
def crawl_with_filter (engine : Engine) (dw : DiskWrite) (store : Store)
    (url : String) (filter_type : String) (query : Option String)
    (env_api_key : Option String) (ts : Nat) : Json :=
  pyExcept (
    if filter_type = "bm25" ∧ pyTruthy query then
      crawl_with_filter_main engine dw store url filter_type ts
    else if filter_type = "pruning" then
      crawl_with_filter_main engine dw store url filter_type ts
    else if filter_type = "llm" then
      if !pyTruthy env_api_key then
        pure (.obj [("success", .bool false),
          ("error", .str "API key required for LLM filtering")])
      else crawl_with_filter_main engine dw store url filter_type ts
    else crawl_with_filter_main engine dw store url filter_type ts)

/-- a link dict as serialized into the extract_links response (the model
keeps only the href key). -/
def linkJson (l : Link) : Json := .obj [("href", .str l.href)]

/-- Preview of one link (lines 971-992): the inner try body; an engine
exception, and likewise the TypeError of slicing a non-string
description, is swallowed by except: pass, yielding no preview. -/
def linkPreview (engine : Engine) (link : Link) : List Json :=
  if link.href ≠ "" then
    match engine link.href with
    | .error _ => []
    | .ok pr =>
      if pr.success then
        match dictGetD "description" (.str "") pr.metadata with
        | .str desc =>
          [.obj [("url", .str link.href),
            ("title", dictGetD "title" (.str "") pr.metadata),
            ("description", .str (strTake desc 200)),
            ("preview", .str (if pr.markdown ≠ "" then strTake pr.markdown 500 else ""))]]
        | _ => []
      else []
  else []

/-- src/server.py extract_links (lines 919-1002). -/
def extract_links (engine : Engine) (url : String)
    (preview_links : Bool) (max_preview : Nat) : Json :=
  pyExcept (do
    let result ← engine url
    if !result.success then
      pure (.obj [("success", .bool false),
        ("error", .str (pyOr result.error_message "Failed to extract links"))])
    else
      let response : List (String × Json) :=
        [("success", .bool true), ("url", .str url),
         ("internal_links", .arr (result.links_internal.map linkJson)),
         ("external_links", .arr (result.links_external.map linkJson)),
         ("total_internal", .num result.links_internal.length),
         ("total_external", .num result.links_external.length)]
      let response :=
        if preview_links then
          let all_links := result.links_internal.take (max_preview / 2)
            ++ result.links_external.take (max_preview / 2)
          let previews :=
            ((all_links.take max_preview).map (linkPreview engine)).flatten
          response ++ [("link_previews", .arr previews)]
        else response
      pure (.obj response))

/-- Directory listing of the cache for list_crawled_content: pairs of
file stem and load outcome; none models a file whose open or json.load
raises, which except: pass swallows. -/
def CacheDir := List (String × Option StoreEntry)

/-- src/server.py list_crawled_content (lines 1065-1110). -/
def list_crawled_content (store : Store) (cache : CacheDir) : Json :=
  pyExcept (do
    let memItems := store.map (fun p =>
      Json.obj [("content_id", .str p.1), ("url", .str p.2.url),
        ("timestamp", .num p.2.timestamp)])
    let cacheItems := (cache.map (fun p =>
      if (dictGet p.1 store).isNone then
        match p.2 with
        | some data =>
          [Json.obj [("content_id", .str p.1), ("url", .str data.url),
            ("timestamp", .num data.timestamp), ("from_cache", .bool true)]]
        | none => []
      else [])).flatten
    let content_list := memItems ++ cacheItems
    pure (.obj [("success", .bool true),
      ("total_items", .num content_list.length),
      ("content", .arr content_list)]))

/-- src/server.py crawl_with_js_execution (lines 1114-1171). -/
def crawl_with_js_execution (engine : Engine) (dw : DiskWrite)
    (store : Store) (url : String) (js_code : Option String) (ts : Nat) :
    Json :=
  pyExcept (do
    let result ← engine url
    if result.success then
      let saved := save_crawled_content dw store url result ts
      let content_id ← saved.2
      pure (.obj [("success", .bool true), ("url", .str url),
        ("content_id", .str content_id),
        ("js_executed", .bool (pyTruthy js_code)),
        ("content_length", .num (contentLength result)),
        ("title", titleOf result)])
    else
      pure (.obj [("success", .bool false),
        ("error", .str (pyOr result.error_message "JS crawl failed"))]))

/-- src/server.py crawl_dynamic_content (lines 1173-1244). -/
def crawl_dynamic_content (engine : Engine) (dw : DiskWrite)
    (store : Store) (url : String) (scroll : Bool) (ts : Nat) : Json :=
  pyExcept (do
    let result ← engine url
    if result.success then
      let saved := save_crawled_content dw store url result ts
      let content_id ← saved.2
      pure (.obj [("success", .bool true), ("url", .str url),
        ("content_id", .str content_id),
        ("scrolling_applied", .bool scroll),
        ("content_length", .num (contentLength result)),
        ("title", titleOf result)])
    else
      pure (.obj [("success", .bool false),
        ("error", .str (pyOr result.error_message "Dynamic crawl failed"))]))

/-! Concrete fixtures used by witnesses and counterexamples: small
engines over explicit link graphs. -/

/-- A successful engine-result fixture with the given internal links and
str() tag. -/
def mkResult (links : List Link) (tag : String) : EngineResult :=
  ⟨true, none, "m", "", [], links, [], [], "", "", .null, "", false, .null, tag⟩

/-- A failed engine-result fixture. -/
def mkFailResult : EngineResult :=
  ⟨false, some "boom", "", "", [], [], [], [], "", "", .null, "", false, .null, "F"⟩

/-- A disk write that always succeeds. -/
def dwOK : DiskWrite := fun _ => .ok ()

/-- Engine of the spec scenario: a.test/ links to a.test/x and b.test/y;
every page loads successfully. -/
def engA : Engine := fun u =>
  if u = "https://a.test/" then
    .ok (mkResult [⟨"https://a.test/x"⟩, ⟨"https://b.test/y"⟩] "RA")
  else if u = "https://a.test/x" then .ok (mkResult [] "RX")
  else .ok (mkResult [] "RO")

/-- Engine for the frontier-order scenario: s.test/ links to x and y,
and x links to z. -/
def engB : Engine := fun u =>
  if u = "https://s.test/" then
    .ok (mkResult [⟨"https://s.test/x"⟩, ⟨"https://s.test/y"⟩] "RS")
  else if u = "https://s.test/x" then
    .ok (mkResult [⟨"https://s.test/z"⟩] "RXX")
  else .ok (mkResult [] "RO")

/-- Engine whose start page links out of domain: a.test/ links to
b.test/y only. -/
def engC : Engine := fun u =>
  if u = "https://a.test/" then .ok (mkResult [⟨"https://b.test/y"⟩] "RC")
  else .ok (mkResult [] "RO")

/-- Engine on which every crawl reports failure. -/
def engFail : Engine := fun _ => .ok mkFailResult

/-- The urls of the "results" array of a crawl summary JSON. -/
def resultUrls (j : Json) : List Json :=
  match j.lookup "results" with
  | some (.arr l) => l.map (fun e => (e.lookup "url").getD .null)
  | _ => []

/-- Links eligible for a frontier push from a page at the given depth:
non-empty href not yet visited, as (url, depth) pairs in link order. -/
def eligibleLinks (links : List Link) (vis : List String) (d : Nat) :
    List (String × Nat) :=
  (links.filter (fun l => decide (l.href ≠ "" ∧ l.href ∉ vis))).map
    (fun l => (l.href, d))

/-- Loop invariant of the traversal states: the engine was called on
pairwise-distinct urls, all already marked visited; the recorded entries
follow the call order, number at most maxPages and sit at depth at most
maxDepth; frontier entries sit at depth at most maxDepth + 1. -/
def TravInv (maxDepth maxPages : Nat) (st : TravState) : Prop :=
  st.engine_log.Nodup ∧
  (∀ u ∈ st.engine_log, u ∈ st.visited) ∧
  (st.crawled_urls.map (fun e => e.url)).Sublist st.engine_log ∧
  st.crawled_urls.length ≤ maxPages ∧
  (∀ p ∈ st.to_visit, p.2 ≤ maxDepth + 1) ∧
  (∀ e ∈ st.crawled_urls, e.depth ≤ maxDepth)

/-- Response-envelope predicate of the spec: a boolean success field,
and an error string whenever the success field is false. -/
def envelopeOK (j : Json) : Prop :=
  (∃ b, j.lookup "success" = some (.bool b)) ∧
  (j.lookup "success" = some (.bool false) →
    ∃ s, j.lookup "error" = some (.str s))

end MCP

namespace MCP

/-! Utility lemmas. -/

theorem dictGet_insert_self (k : String) (v : α) (l : List (String × α)) :
    dictGet k (dictInsert k v l) = some v := by
  induction l with
  | nil => simp [dictInsert, dictGet]
  | cons p rest ih =>
    obtain ⟨k1, v1⟩ := p
    by_cases h : k1 = k
    · simp [dictInsert, dictGet, h]
    · simp [dictInsert, dictGet, h, ih]

theorem dictGet_append_left (k : String) (l m : List (String × α)) (v : α)
    (h : dictGet k l = some v) : dictGet k (l ++ m) = some v := by
  induction l with
  | nil => simp [dictGet] at h
  | cons p rest ih =>
    obtain ⟨k1, v1⟩ := p
    by_cases hk : k1 = k
    · simp [dictGet, hk] at h ⊢
      exact h
    · simp [dictGet, hk] at h ⊢
      exact ih h

theorem strTake_length (s : String) (n : Nat) :
    (strTake s n).length = min n s.length := by
  show (s.data.take n).length = min n s.data.length
  exact List.length_take n s.data

theorem flatten_byteHex_length (bs : List Nat) :
    ((bs.map byteHex).flatten).length = 2 * bs.length := by
  induction bs with
  | nil => rfl
  | cons b rest ih =>
    simp [byteHex, ih]
    omega

theorem leBytes_length (k n : Nat) : (leBytes k n).length = k := by
  induction k generalizing n with
  | zero => rfl
  | succ k ih => simp [leBytes, ih]

theorem md5Digest_length (m : List Nat) : (md5Digest m).length = 16 := by
  simp [md5Digest, leBytes_length]

theorem md5Hex_length (s : String) : (md5Hex s).length = 32 := by
  show ((md5Digest (utf8Bytes s)).map byteHex).flatten.length = 32
  rw [flatten_byteHex_length, md5Digest_length]

/-- RFC 1321 test vector, checking the MD5 model. -/
theorem md5Hex_abc : md5Hex "abc" = "900150983cd24fb0d6963f7d28e17f72" := by
  decide

/-- RFC 1321 test vector for the empty message, checking the padding. -/
theorem md5Hex_empty : md5Hex "" = "d41d8cd98f00b204e9800998ecf8427e" := by
  decide

/-- C9: generate_content_hash is deterministic - two calls on equal
serialized payload strings return the same id - and the returned id has
12 characters. -/
theorem generate_content_hash_deterministic (s t : String) (h : s = t) :
    generate_content_hash s = generate_content_hash t ∧
    (generate_content_hash s).length = 12 := by
  subst h
  refine ⟨rfl, ?_⟩
  rw [generate_content_hash, strTake_length, md5Hex_length]
  decide

/-- Witness for C9 at the payload "abc". -/
theorem generate_content_hash_deterministic_witness :
    generate_content_hash "abc" = generate_content_hash "abc" ∧
    (generate_content_hash "abc").length = 12 :=
  generate_content_hash_deterministic "abc" "abc" rfl

/-- C2 counterexample: with a failing disk write, save_crawled_content
does not return the content id - the exception of the unguarded
open/json.dump call propagates to the caller. -/
theorem save_disk_failure_counterexample :
    (save_crawled_content (fun _ => .error "No space left on device") []
        "https://e.test/" (mkResult [] "R1") 0).2
      ≠ .ok (generate_content_hash (mkResult [] "R1").asStr) := by
  simp [save_crawled_content]

/-- C2 amended: when the disk write raises, save_crawled_content raises
instead of returning the id; the in-memory entry under the id remains
present, and the enclosing tool handler (here crawl_url) converts the
exception into an error envelope rather than exposing it. -/
theorem save_disk_failure_amended (dw : DiskWrite) (store : Store)
    (url : String) (r : EngineResult) (ts : Nat) (e : String) (engine : Engine)
    (hfail : dw (generate_content_hash r.asStr) = .error e)
    (heng : engine url = .ok r) (hs : r.success = true) :
    (save_crawled_content dw store url r ts).2 = .error e ∧
    dictGet (generate_content_hash r.asStr)
        (save_crawled_content dw store url r ts).1 = some ⟨url, .res r, ts⟩ ∧
    crawl_url engine dw store url false false ts
      = .obj [("success", .bool false), ("error", .str e)] := by
  refine ⟨?_, ?_, ?_⟩
  · simp [save_crawled_content, hfail]
  · simp [save_crawled_content, hfail, dictGet_insert_self]
  · simp [crawl_url, pyExcept, heng, hs, save_crawled_content, hfail,
      Except.bind, Bind.bind]

/-- Witness for C2 amended at a concrete failing disk. -/
theorem save_disk_failure_amended_witness :
    (save_crawled_content (fun _ => .error "disk full") [] "https://e.test/"
        (mkResult [] "R1") 0).2 = .error "disk full" ∧
    dictGet (generate_content_hash (mkResult [] "R1").asStr)
        (save_crawled_content (fun _ => .error "disk full") [] "https://e.test/"
          (mkResult [] "R1") 0).1
      = some ⟨"https://e.test/", .res (mkResult [] "R1"), 0⟩ ∧
    crawl_url (fun _ => .ok (mkResult [] "R1")) (fun _ => .error "disk full")
        [] "https://e.test/" false false 0
      = .obj [("success", .bool false), ("error", .str "disk full")] :=
  save_disk_failure_amended (fun _ => .error "disk full") [] "https://e.test/"
    (mkResult [] "R1") 0 "disk full" (fun _ => .ok (mkResult [] "R1"))
    rfl rfl rfl

/-- C6: put (save_crawled_content) followed by get (get_crawled_content)
with the id that put returned yields an entry whose url field equals the
url passed to put. -/
theorem put_get_roundtrip (dw : DiskWrite) (dr : DiskRead) (store : Store)
    (url : String) (r : EngineResult) (ts : Nat)
    (includeHtml includeShot : Bool) (cid : String)
    (hok : (save_crawled_content dw store url r ts).2 = .ok cid) :
    ((get_crawled_content (save_crawled_content dw store url r ts).1 dr cid
        includeHtml includeShot).2).lookup "url" = some (.str url) := by
  have hcid : cid = generate_content_hash r.asStr := by
    unfold save_crawled_content at hok
    cases hdw : dw (generate_content_hash r.asStr) with
    | ok u => simp [hdw] at hok; exact hok.symm
    | error e => simp [hdw] at hok
  subst hcid
  have hstore : (save_crawled_content dw store url r ts).1
      = dictInsert (generate_content_hash r.asStr) ⟨url, .res r, ts⟩ store := by
    unfold save_crawled_content
    cases hdw : dw (generate_content_hash r.asStr) <;> simp [hdw]
  rw [hstore]
  unfold get_crawled_content
  rw [dictGet_insert_self]
  simp only [Json.lookup]
  split
  · split
    · apply dictGet_append_left
      apply dictGet_append_left
      simp [dictGet]
    · apply dictGet_append_left
      simp [dictGet]
  · split
    · apply dictGet_append_left
      simp [dictGet]
    · simp [dictGet]

/-- Witness for C6: a concrete put followed by get. -/
theorem put_get_roundtrip_witness :
    ((get_crawled_content
        (save_crawled_content dwOK [] "https://e.test/" (mkResult [] "R1") 0).1
        (fun _ => none) (generate_content_hash (mkResult [] "R1").asStr)
        false false).2).lookup "url" = some (.str "https://e.test/") :=
  put_get_roundtrip dwOK (fun _ => none) [] "https://e.test/" (mkResult [] "R1")
    0 false false (generate_content_hash (mkResult [] "R1").asStr) rfl

/-- C7: get_crawled_content checks memory first (a memory hit never
consults the disk), on a miss loads id.json from the cache directory
into memory, and when the id is in neither place returns the not-found
error envelope; the function is total, so no exception reaches the
caller. -/
theorem get_crawled_content_lookup_policy (store : Store) (dr dr2 : DiskRead)
    (cid : String) (includeHtml includeShot : Bool) :
    (dictGet cid store ≠ none →
      get_crawled_content store dr cid includeHtml includeShot
        = get_crawled_content store dr2 cid includeHtml includeShot) ∧
    (∀ en, dictGet cid store = none → dr cid = some (.ok en) →
      (get_crawled_content store dr cid includeHtml includeShot).1
          = dictInsert cid en store ∧
      ((get_crawled_content store dr cid includeHtml includeShot).2).lookup
          "success" = some (.bool true)) ∧
    (dictGet cid store = none → dr cid = none →
      get_crawled_content store dr cid includeHtml includeShot
        = (store, .obj [("success", .bool false),
            ("error", .str ("Content ID " ++ cid ++ " not found"))])) := by
  refine ⟨?_, ?_, ?_⟩
  · intro h
    unfold get_crawled_content
    cases hm : dictGet cid store with
    | some e => simp [hm]
    | none => exact absurd hm h
  · intro en hm hdr
    unfold get_crawled_content
    rw [hm, hdr]
    refine ⟨rfl, ?_⟩
    simp only [Json.lookup]
    split
    · split
      · apply dictGet_append_left
        apply dictGet_append_left
        simp [dictGet]
      · apply dictGet_append_left
        simp [dictGet]
    · split
      · apply dictGet_append_left
        simp [dictGet]
      · simp [dictGet]
  · intro hm hdr
    unfold get_crawled_content
    rw [hm, hdr]

/-- Witness for C7: an id that is in neither memory nor on disk. -/
theorem get_crawled_content_lookup_policy_witness :
    get_crawled_content [] (fun _ => none) "deadbeefcafe" false false
      = ([], .obj [("success", .bool false),
          ("error", .str ("Content ID " ++ "deadbeefcafe" ++ " not found"))]) :=
  ((get_crawled_content_lookup_policy [] (fun _ => none) (fun _ => none)
      "deadbeefcafe" false false).2.2) rfl rfl

/-- C10: on a successful crawl_url invocation, the markdown field of the
response equals the full result markdown when its length is at most 1000
characters and otherwise exactly the first 1000 characters followed by
"...", so the field never exceeds 1003 characters. -/
theorem crawl_url_markdown_truncation (engine : Engine) (dw : DiskWrite)
    (store : Store) (url : String) (screenshot pdf : Bool) (ts : Nat)
    (r : EngineResult) (cid : String)
    (heng : engine url = .ok r) (hs : r.success = true)
    (hw : (save_crawled_content dw store url r ts).2 = .ok cid) :
    (crawl_url engine dw store url screenshot pdf ts).lookup "markdown"
      = some (.str (if r.markdown.length ≤ 1000 then r.markdown
          else strTake r.markdown 1000 ++ "...")) ∧
    ∀ s, (crawl_url engine dw store url screenshot pdf ts).lookup "markdown"
        = some (.str s) → s.length ≤ 1003 := by
  have hpre : markdownPreview r.markdown
      = (if r.markdown.length ≤ 1000 then r.markdown
          else strTake r.markdown 1000 ++ "...") := by
    unfold markdownPreview
    by_cases h : r.markdown.length ≤ 1000
    · rw [if_neg (by omega), if_pos h]
    · rw [if_pos (by omega), if_neg h]
  have hmain : (crawl_url engine dw store url screenshot pdf ts).lookup
      "markdown" = some (.str (markdownPreview r.markdown)) := by
    simp only [crawl_url, heng, hs, hw, Except.bind, Bind.bind, Pure.pure,
      Except.pure, pyExcept, if_true, Json.lookup]
    split
    · split
      · apply dictGet_append_left
        apply dictGet_append_left
        simp [dictGet]
      · apply dictGet_append_left
        simp [dictGet]
    · split
      · apply dictGet_append_left
        simp [dictGet]
      · simp [dictGet]
  have hbound : (markdownPreview r.markdown).length ≤ 1003 := by
    unfold markdownPreview
    by_cases h : r.markdown.length > 1000
    · rw [if_pos h, String.length_append, strTake_length]
      have h3 : ("..." : String).length = 3 := by decide
      omega
    · rw [if_neg h]
      omega
  constructor
  · rw [hmain, hpre]
  · intro s hsome
    rw [hmain] at hsome
    have : markdownPreview r.markdown = s := by
      injection hsome with h1
      injection h1
    rw [← this]
    exact hbound

/-! Envelope lemmas for C8: every return site of every handler is an
object whose first field is a success bool, with an error string right
behind it on the failure sites. -/

theorem lookup_success_cons (b : Bool) (fields : List (String × Json)) :
    (Json.obj (("success", Json.bool b) :: fields)).lookup "success"
      = some (.bool b) := by
  simp [Json.lookup, dictGet]

theorem envelopeOK_true (fields : List (String × Json)) :
    envelopeOK (.obj (("success", .bool true) :: fields)) := by
  constructor
  · exact ⟨true, lookup_success_cons true fields⟩
  · intro h
    rw [lookup_success_cons] at h
    simp at h

theorem envelopeOK_error (e : String) (extra : List (String × Json)) :
    envelopeOK (.obj (("success", .bool false) :: ("error", .str e) :: extra)) := by
  constructor
  · exact ⟨false, lookup_success_cons false _⟩
  · intro _
    exact ⟨e, by simp [Json.lookup, dictGet]⟩

theorem envelopeOK_pyExcept (body : Except String Json)
    (h : ∀ j, body = .ok j → envelopeOK j) : envelopeOK (pyExcept body) := by
  cases body with
  | ok j => exact h j rfl
  | error e => exact envelopeOK_error e []

theorem crawl_url_env (engine : Engine) (dw : DiskWrite) (store : Store)
    (url : String) (screenshot pdf : Bool) (ts : Nat) :
    envelopeOK (crawl_url engine dw store url screenshot pdf ts) := by
  unfold crawl_url
  apply envelopeOK_pyExcept
  intro j hj
  cases heng : engine url with
  | error e =>
    rw [heng] at hj
    simp only [Except.bind, Bind.bind] at hj
    cases hj
  | ok r =>
    rw [heng] at hj
    simp only [Except.bind, Bind.bind, Pure.pure, Except.pure] at hj
    split at hj
    · cases hsv : (save_crawled_content dw store url r ts).2 with
      | error e => rw [hsv] at hj; cases hj
      | ok cid =>
        rw [hsv] at hj
        simp only at hj
        cases hj
        split
        · split
          · exact envelopeOK_true _
          · exact envelopeOK_true _
        · split
          · exact envelopeOK_true _
          · exact envelopeOK_true _
    · cases hj
      exact envelopeOK_error _ _

theorem crawl_with_auth_env (engine : Engine) (dw : DiskWrite)
    (store : Store) (url : String) (ts : Nat) :
    envelopeOK (crawl_with_auth engine dw store url ts) := by
  unfold crawl_with_auth
  apply envelopeOK_pyExcept
  intro j hj
  cases heng : engine url with
  | error e =>
    rw [heng] at hj
    simp only [Except.bind, Bind.bind] at hj
    cases hj
  | ok r =>
    rw [heng] at hj
    simp only [Except.bind, Bind.bind, Pure.pure, Except.pure] at hj
    split at hj
    · cases hsv : (save_crawled_content dw store url r ts).2 with
      | error e => rw [hsv] at hj; cases hj
      | ok cid =>
        rw [hsv] at hj
        simp only at hj
        cases hj
        exact envelopeOK_true _
    · cases hj
      exact envelopeOK_error _ _

theorem batch_crawl_env (engineMany : Except String (List EngineResult))
    (dw : DiskWrite) (store : Store) (urls : List String) (ts : Nat) :
    envelopeOK (batch_crawl engineMany dw store urls ts) := by
  unfold batch_crawl
  apply envelopeOK_pyExcept
  intro j hj
  cases hm : engineMany with
  | error e =>
    rw [hm] at hj
    simp only [Except.bind, Bind.bind] at hj
    cases hj
  | ok results =>
    rw [hm] at hj
    simp only [Except.bind, Bind.bind, Pure.pure, Except.pure] at hj
    cases hfold : results.foldlM (batchItem dw ts) (store, []) with
    | error e => rw [hfold] at hj; cases hj
    | ok acc =>
      rw [hfold] at hj
      simp only at hj
      cases hj
      exact envelopeOK_true _

theorem simple_deep_crawl_env (engine : Engine) (dw : DiskWrite)
    (store : Store) (start_url : String) (maxDepth maxPages : Nat)
    (allowed : List String) (ts fuel : Nat) (b : Except String Json)
    (h : simple_deep_crawl engine dw store start_url maxDepth maxPages
      allowed ts fuel = some b) : envelopeOK (pyExcept b) := by
  unfold simple_deep_crawl at h
  split at h
  · injection h with h
    subst h
    exact envelopeOK_error _ []
  · split at h
    · cases h
    · injection h with h
      subst h
      exact envelopeOK_true _

theorem deep_crawl_env (available : Bool) (engine : Engine) (dw : DiskWrite)
    (store : Store) (start_url : String) (maxDepth maxPages : Nat)
    (strategy : String) (allowed excl incl kw : List String) (ts fuel : Nat) :
    ∀ j, deep_crawl available engine dw store start_url maxDepth maxPages
      strategy allowed excl incl kw ts fuel = some j → envelopeOK j := by
  intro j hj
  unfold deep_crawl at hj
  split at hj
  · cases hsd : simple_deep_crawl engine dw store start_url maxDepth maxPages
        allowed ts fuel with
    | none => rw [hsd] at hj; cases hj
    | some b =>
      rw [hsd] at hj
      simp only [Option.map] at hj
      injection hj with hj
      subst hj
      exact simple_deep_crawl_env engine dw store start_url maxDepth maxPages
        allowed ts fuel b hsd
  · split at hj
    · injection hj with hj
      subst hj
      exact envelopeOK_error _ []
    · split at hj
      · cases hj
      · injection hj with hj
        subst hj
        exact envelopeOK_true _

theorem extract_structured_data_env (engine : Engine) (url : String)
    (extraction_type : String) :
    envelopeOK (extract_structured_data engine url extraction_type) := by
  unfold extract_structured_data
  apply envelopeOK_pyExcept
  intro j hj
  split at hj
  · cases heng : engine url with
    | error e =>
      rw [heng] at hj
      simp only [Except.bind, Bind.bind] at hj
      cases hj
    | ok r =>
      rw [heng] at hj
      simp only [Except.bind, Bind.bind, Pure.pure, Except.pure] at hj
      split at hj
      · cases hj
        exact envelopeOK_true _
      · cases hj
        exact envelopeOK_error _ _
  · simp only [Pure.pure, Except.pure] at hj
    cases hj
    exact envelopeOK_error _ _

theorem extract_with_llm_main_env (engine : Engine) (dw : DiskWrite)
    (store : Store) (url : String) (model : String) (ts : Nat) :
    ∀ j, extract_with_llm_main engine dw store url model ts = .ok j →
      envelopeOK j := by
  intro j hj
  unfold extract_with_llm_main at hj
  cases heng : engine url with
  | error e =>
    rw [heng] at hj
    simp only [Except.bind, Bind.bind] at hj
    cases hj
  | ok r =>
    rw [heng] at hj
    simp only [Except.bind, Bind.bind, Pure.pure, Except.pure] at hj
    split at hj
    · cases hsv : (save_crawled_content dw store url r ts).2 with
      | error e => rw [hsv] at hj; cases hj
      | ok cid =>
        rw [hsv] at hj
        simp only at hj
        cases hj
        exact envelopeOK_true _
    · cases hj
      exact envelopeOK_error _ _

theorem extract_with_llm_env (engine : Engine) (dw : DiskWrite)
    (store : Store) (url : String) (model : String)
    (api_key env_api_key : Option String) (ts : Nat) :
    envelopeOK (extract_with_llm engine dw store url model api_key
      env_api_key ts) := by
  unfold extract_with_llm
  apply envelopeOK_pyExcept
  intro j hj
  by_cases hkey : pyTruthy (if pyTruthy api_key then api_key else env_api_key)
  · simp only [hkey, Bool.not_true, Bool.false_eq_true, if_false] at hj
    exact extract_with_llm_main_env engine dw store url model ts j hj
  · rw [Bool.not_eq_true] at hkey
    simp only [hkey, Bool.not_false, if_true] at hj
    injection hj with hj
    subst hj
    exact envelopeOK_error _ _

theorem crawl_with_filter_main_env (engine : Engine) (dw : DiskWrite)
    (store : Store) (url : String) (filter_type : String) (ts : Nat) :
    ∀ j, crawl_with_filter_main engine dw store url filter_type ts = .ok j →
      envelopeOK j := by
  intro j hj
  unfold crawl_with_filter_main at hj
  cases heng : engine url with
  | error e =>
    rw [heng] at hj
    simp only [Except.bind, Bind.bind] at hj
    cases hj
  | ok r =>
    rw [heng] at hj
    simp only [Except.bind, Bind.bind, Pure.pure, Except.pure] at hj
    split at hj
    · cases hsv : (save_crawled_content dw store url r ts).2 with
      | error e => rw [hsv] at hj; cases hj
      | ok cid =>
        rw [hsv] at hj
        simp only at hj
        cases hj
        exact envelopeOK_true _
    · cases hj
      exact envelopeOK_error _ _

theorem crawl_with_filter_env (engine : Engine) (dw : DiskWrite)
    (store : Store) (url : String) (filter_type : String)
    (query env_api_key : Option String) (ts : Nat) :
    envelopeOK (crawl_with_filter engine dw store url filter_type query
      env_api_key ts) := by
  unfold crawl_with_filter
  apply envelopeOK_pyExcept
  intro j hj
  split at hj
  · exact crawl_with_filter_main_env engine dw store url filter_type ts j hj
  · split at hj
    · exact crawl_with_filter_main_env engine dw store url filter_type ts j hj
    · split at hj
      · split at hj
        · simp only [Pure.pure, Except.pure] at hj
          cases hj
          exact envelopeOK_error _ _
        · exact crawl_with_filter_main_env engine dw store url filter_type ts j hj
      · exact crawl_with_filter_main_env engine dw store url filter_type ts j hj

theorem extract_links_env (engine : Engine) (url : String)
    (preview_links : Bool) (max_preview : Nat) :
    envelopeOK (extract_links engine url preview_links max_preview) := by
  unfold extract_links
  apply envelopeOK_pyExcept
  intro j hj
  cases heng : engine url with
  | error e =>
    rw [heng] at hj
    simp only [Except.bind, Bind.bind] at hj
    cases hj
  | ok r =>
    rw [heng] at hj
    simp only [Except.bind, Bind.bind, Pure.pure, Except.pure] at hj
    split at hj
    · cases hj
      exact envelopeOK_error _ _
    · cases hj
      split
      · exact envelopeOK_true _
      · exact envelopeOK_true _

theorem get_crawled_content_env (store : Store) (dr : DiskRead)
    (cid : String) (includeHtml includeShot : Bool) :
    envelopeOK (get_crawled_content store dr cid includeHtml includeShot).2 := by
  unfold get_crawled_content
  cases hm : dictGet cid store with
  | some e =>
    simp only [hm]
    split
    · split
      · exact envelopeOK_true _
      · exact envelopeOK_true _
    · split
      · exact envelopeOK_true _
      · exact envelopeOK_true _
  | none =>
    cases hdr : dr cid with
    | none =>
      simp only [hm, hdr]
      exact envelopeOK_error _ _
    | some ex =>
      cases ex with
      | ok en =>
        simp only [hm, hdr]
        split
        · split
          · exact envelopeOK_true _
          · exact envelopeOK_true _
        · split
          · exact envelopeOK_true _
          · exact envelopeOK_true _
      | error msg =>
        simp only [hm, hdr]
        exact envelopeOK_error _ _

theorem list_crawled_content_env (store : Store) (cache : CacheDir) :
    envelopeOK (list_crawled_content store cache) := by
  unfold list_crawled_content
  apply envelopeOK_pyExcept
  intro j hj
  simp only [Pure.pure, Except.pure] at hj
  cases hj
  exact envelopeOK_true _

theorem crawl_with_js_execution_env (engine : Engine) (dw : DiskWrite)
    (store : Store) (url : String) (js_code : Option String) (ts : Nat) :
    envelopeOK (crawl_with_js_execution engine dw store url js_code ts) := by
  unfold crawl_with_js_execution
  apply envelopeOK_pyExcept
  intro j hj
  cases heng : engine url with
  | error e =>
    rw [heng] at hj
    simp only [Except.bind, Bind.bind] at hj
    cases hj
  | ok r =>
    rw [heng] at hj
    simp only [Except.bind, Bind.bind, Pure.pure, Except.pure] at hj
    split at hj
    · cases hsv : (save_crawled_content dw store url r ts).2 with
      | error e => rw [hsv] at hj; cases hj
      | ok cid =>
        rw [hsv] at hj
        simp only at hj
        cases hj
        exact envelopeOK_true _
    · cases hj
      exact envelopeOK_error _ _

theorem crawl_dynamic_content_env (engine : Engine) (dw : DiskWrite)
    (store : Store) (url : String) (scroll : Bool) (ts : Nat) :
    envelopeOK (crawl_dynamic_content engine dw store url scroll ts) := by
  unfold crawl_dynamic_content
  apply envelopeOK_pyExcept
  intro j hj
  cases heng : engine url with
  | error e =>
    rw [heng] at hj
    simp only [Except.bind, Bind.bind] at hj
    cases hj
  | ok r =>
    rw [heng] at hj
    simp only [Except.bind, Bind.bind, Pure.pure, Except.pure] at hj
    split at hj
    · cases hsv : (save_crawled_content dw store url r ts).2 with
      | error e => rw [hsv] at hj; cases hj
      | ok cid =>
        rw [hsv] at hj
        simp only at hj
        cases hj
        exact envelopeOK_true _
    · cases hj
      exact envelopeOK_error _ _

/-- C8: every tool handler, on every input - including engine calls that
raise, engine-reported failures and disk-write exceptions - returns a
JSON envelope with a boolean success field and, when success is false,
an error string; the handlers are total functions into Json, so no
exception reaches the transport layer. -/
theorem all_handlers_return_envelopes :
    (∀ engine dw store url screenshot pdf ts,
      envelopeOK (crawl_url engine dw store url screenshot pdf ts)) ∧
    (∀ engine dw store url ts,
      envelopeOK (crawl_with_auth engine dw store url ts)) ∧
    (∀ engineMany dw store urls ts,
      envelopeOK (batch_crawl engineMany dw store urls ts)) ∧
    (∀ available engine dw store start_url maxDepth maxPages strategy
        allowed excl incl kw ts fuel j,
      deep_crawl available engine dw store start_url maxDepth maxPages
          strategy allowed excl incl kw ts fuel = some j → envelopeOK j) ∧
    (∀ engine url extraction_type,
      envelopeOK (extract_structured_data engine url extraction_type)) ∧
    (∀ engine dw store url model api_key env_key ts,
      envelopeOK (extract_with_llm engine dw store url model api_key
        env_key ts)) ∧
    (∀ engine dw store url filter_type query env_key ts,
      envelopeOK (crawl_with_filter engine dw store url filter_type query
        env_key ts)) ∧
    (∀ engine url preview_links max_preview,
      envelopeOK (extract_links engine url preview_links max_preview)) ∧
    (∀ store dr cid includeHtml includeShot,
      envelopeOK (get_crawled_content store dr cid includeHtml
        includeShot).2) ∧
    (∀ store cache, envelopeOK (list_crawled_content store cache)) ∧
    (∀ engine dw store url js_code ts,
      envelopeOK (crawl_with_js_execution engine dw store url js_code ts)) ∧
    (∀ engine dw store url scroll ts,
      envelopeOK (crawl_dynamic_content engine dw store url scroll ts)) :=
  ⟨crawl_url_env, crawl_with_auth_env, batch_crawl_env, deep_crawl_env,
   extract_structured_data_env, extract_with_llm_env, crawl_with_filter_env,
   extract_links_env, get_crawled_content_env, list_crawled_content_env,
   crawl_with_js_execution_env, crawl_dynamic_content_env⟩

/-- Witness for C8: the deep_crawl conjunct applied to a concrete
finished run. -/
theorem all_handlers_return_envelopes_witness :
    envelopeOK (crawlSummary "simple_bfs" "https://a.test/"
      ⟨[], ["https://a.test/"], [], [], ["https://a.test/"]⟩) :=
  all_handlers_return_envelopes.2.2.2.1 false engFail dwOK []
    "https://a.test/" 1 10 "bfs" [] [] [] [] 0 2
    (crawlSummary "simple_bfs" "https://a.test/"
      ⟨[], ["https://a.test/"], [], [], ["https://a.test/"]⟩) (by rfl)

/-- Witness for C10 on a concrete successful crawl. -/
theorem crawl_url_markdown_truncation_witness :
    (crawl_url (fun _ => .ok (mkResult [] "R1")) dwOK [] "https://e.test/"
        false false 0).lookup "markdown"
      = some (.str (if (mkResult [] "R1").markdown.length ≤ 1000 then
          (mkResult [] "R1").markdown
          else strTake (mkResult [] "R1").markdown 1000 ++ "...")) ∧
    ∀ s, (crawl_url (fun _ => .ok (mkResult [] "R1")) dwOK [] "https://e.test/"
        false false 0).lookup "markdown" = some (.str s) → s.length ≤ 1003 :=
  crawl_url_markdown_truncation (fun _ => .ok (mkResult [] "R1")) dwOK []
    "https://e.test/" false false 0 (mkResult [] "R1")
    (generate_content_hash (mkResult [] "R1").asStr) rfl rfl rfl

/-! Invariants of the fallback traversal (C1, C5). -/

theorem mem_pushLinksBfs (links : List Link) (vis : List String) (d : Nat)
    (tv : List (String × Nat)) (p : String × Nat)
    (h : p ∈ pushLinksBfs links vis d tv) : p ∈ tv ∨ p.2 = d := by
  induction links generalizing tv with
  | nil => exact Or.inl h
  | cons l ls ih =>
    have h' : p ∈ pushLinksBfs ls vis d
        (if l.href ≠ "" ∧ l.href ∉ vis then tv ++ [(l.href, d)] else tv) := by
      simpa only [pushLinksBfs, List.foldl_cons] using h
    rcases ih _ h' with hmem | hd
    · split at hmem
      · rcases List.mem_append.1 hmem with h1 | h1
        · exact Or.inl h1
        · rw [List.mem_singleton] at h1
          subst h1
          exact Or.inr rfl
      · exact Or.inl hmem
    · exact Or.inr hd

theorem simpleStep_inv (engine : Engine) (dw : DiskWrite)
    (maxDepth maxPages : Nat) (allowed : List String) (ts : Nat)
    (st st1 : TravState)
    (hg : st.crawled_urls.length < maxPages)
    (hinv : TravInv maxDepth maxPages st)
    (hstep : simpleStep engine dw maxDepth allowed ts st = .ok st1) :
    TravInv maxDepth maxPages st1 := by
  obtain ⟨h1, h2, h3, h4, h5, h6⟩ := hinv
  unfold simpleStep at hstep
  split at hstep
  · injection hstep with hstep
    subst hstep
    exact ⟨h1, h2, h3, h4, h5, h6⟩
  · rename_i url depth rest heq
    split at hstep
    · injection hstep with hstep
      subst hstep
      refine ⟨h1, h2, h3, h4, ?_, h6⟩
      intro p hp
      exact h5 p (heq ▸ List.mem_cons_of_mem _ hp)
    · rename_i hskip
      rw [not_or] at hskip
      obtain ⟨hnotvis, hnotdeep⟩ := hskip
      split at hstep
      · injection hstep with hstep
        subst hstep
        refine ⟨h1, h2, h3, h4, ?_, h6⟩
        intro p hp
        exact h5 p (heq ▸ List.mem_cons_of_mem _ hp)
      · split at hstep
        · cases hstep
        · rename_i result hengine
          dsimp only at hstep
          have hlog : (st.engine_log ++ [url]).Nodup := by
            rw [List.nodup_append]
            refine ⟨h1, List.nodup_singleton url, ?_⟩
            intro a ha hb
            rw [List.mem_singleton] at hb
            subst hb
            exact hnotvis (h2 a ha)
          have hsub : ∀ u ∈ st.engine_log ++ [url], u ∈ url :: st.visited := by
            intro u hu
            rcases List.mem_append.1 hu with hu | hu
            · exact List.mem_cons_of_mem _ (h2 u hu)
            · rw [List.mem_singleton] at hu
              subst hu
              exact List.mem_cons_self _ _
          have hrest : ∀ p ∈ rest, p.2 ≤ maxDepth + 1 := by
            intro p hp
            exact h5 p (heq ▸ List.mem_cons_of_mem _ hp)
          split at hstep
          · split at hstep
            · cases hstep
            · rename_i store1 content_id hsave
              injection hstep with hstep
              subst hstep
              refine ⟨hlog, hsub, ?_, ?_, ?_, ?_⟩
              · rw [List.map_append]
                exact List.Sublist.append h3 (List.Sublist.refl _)
              · rw [List.length_append]
                simpa using hg
              · intro p hp
                rcases mem_pushLinksBfs _ _ _ _ p hp with hp | hp
                · exact hrest p hp
                · rw [hp]
                  omega
              · intro e he
                rcases List.mem_append.1 he with he | he
                · exact h6 e he
                · rw [List.mem_singleton] at he
                  subst he
                  simpa using Nat.le_of_not_lt hnotdeep
          · injection hstep with hstep
            subst hstep
            exact ⟨hlog, hsub,
              h3.trans (List.sublist_append_left st.engine_log [url]),
              h4, hrest, h6⟩

theorem simpleRun_inv (engine : Engine) (dw : DiskWrite)
    (maxDepth maxPages : Nat) (allowed : List String) (ts : Nat) :
    ∀ (n : Nat) (st st1 : TravState), TravInv maxDepth maxPages st →
      simpleRun engine dw maxDepth maxPages allowed ts n st = .ok st1 →
      TravInv maxDepth maxPages st1 := by
  intro n
  induction n with
  | zero =>
    intro st st1 hinv h
    injection h with h
    subst h
    exact hinv
  | succ n ih =>
    intro st st1 hinv h
    rw [simpleRun] at h
    split at h
    · rename_i hguard
      split at h
      · cases h
      · rename_i st2 hstep
        exact ih st2 st1
          (simpleStep_inv engine dw maxDepth maxPages allowed ts st st2
            hguard.2 hinv hstep) h
    · injection h with h
      subst h
      exact hinv

/-- C1 counterexample: with max_depth = 0, after the first iteration of
the fallback loop the frontier holds the links of the start page at
depth 1 > 0, so a frontier entry can exceed max_depth. -/
theorem simple_frontier_depth_counterexample :
    (simpleRun engA dwOK 0 10 [] 0 1 (initState "https://a.test/" [])).map
        (fun s => s.to_visit)
      = .ok [("https://a.test/x", 1), ("https://b.test/y", 1)] ∧
    (1 : Nat) > 0 := by
  exact ⟨by rfl, by omega⟩

/-- C1 amended: along every run of the fallback loop from its initial
state, no URL is passed to the engine twice, the recorded entries are
pairwise distinct and number at most max_pages, every recorded entry has
depth at most max_depth, and every frontier entry has depth at most
max_depth + 1 (the links of a page crawled at max_depth do enter the
frontier at max_depth + 1 and are discarded on dequeue). -/
theorem simple_deep_crawl_invariants (engine : Engine) (dw : DiskWrite)
    (store : Store) (start_url : String) (maxDepth maxPages : Nat)
    (allowed : List String) (ts n : Nat) (st : TravState)
    (h : simpleRun engine dw maxDepth maxPages allowed ts n
      (initState start_url store) = .ok st) :
    st.engine_log.Nodup ∧
    (st.crawled_urls.map (fun e => e.url)).Nodup ∧
    st.crawled_urls.length ≤ maxPages ∧
    (∀ e ∈ st.crawled_urls, e.depth ≤ maxDepth) ∧
    (∀ p ∈ st.to_visit, p.2 ≤ maxDepth + 1) := by
  have hinit : TravInv maxDepth maxPages (initState start_url store) := by
    refine ⟨List.nodup_nil, ?_, ?_, ?_, ?_, ?_⟩
    · intro u hu
      simp [initState] at hu
    · simp [initState]
    · simp [initState]
    · intro p hp
      simp [initState] at hp
      subst hp
      simp
    · intro e he
      simp [initState] at he
  obtain ⟨h1, h2, h3, h4, h5, h6⟩ :=
    simpleRun_inv engine dw maxDepth maxPages allowed ts n _ st hinit h
  exact ⟨h1, h3.nodup h1, h4, h6, h5⟩

/-- Witness for C1 on a finished concrete run (every crawl fails, so the
traversal visits only the start URL). -/
theorem simple_deep_crawl_invariants_witness :
    (⟨[], ["https://a.test/"], [], [], ["https://a.test/"]⟩ :
        TravState).engine_log.Nodup ∧
    ((⟨[], ["https://a.test/"], [], [], ["https://a.test/"]⟩ :
        TravState).crawled_urls.map (fun e => e.url)).Nodup ∧
    (⟨[], ["https://a.test/"], [], [], ["https://a.test/"]⟩ :
        TravState).crawled_urls.length ≤ 10 ∧
    (∀ e ∈ (⟨[], ["https://a.test/"], [], [], ["https://a.test/"]⟩ :
        TravState).crawled_urls, e.depth ≤ 1) ∧
    (∀ p ∈ (⟨[], ["https://a.test/"], [], [], ["https://a.test/"]⟩ :
        TravState).to_visit, p.2 ≤ 1 + 1) :=
  simple_deep_crawl_invariants engFail dwOK [] "https://a.test/" 1 10 [] 0 2
    ⟨[], ["https://a.test/"], [], [], ["https://a.test/"]⟩ (by rfl)

/-- Domain-filter preservation for one fallback step (C5). -/
theorem simpleStep_domain (engine : Engine) (dw : DiskWrite)
    (maxDepth : Nat) (allowed : List String) (ts : Nat) (st st1 : TravState)
    (hne : allowed ≠ [])
    (hstep : simpleStep engine dw maxDepth allowed ts st = .ok st1)
    (hlog : ∀ u ∈ st.engine_log, netloc u ∈ allowed)
    (hrec : ∀ e ∈ st.crawled_urls, netloc e.url ∈ allowed) :
    (∀ u ∈ st1.engine_log, netloc u ∈ allowed) ∧
    (∀ e ∈ st1.crawled_urls, netloc e.url ∈ allowed) := by
  unfold simpleStep at hstep
  split at hstep
  · injection hstep with hstep
    subst hstep
    exact ⟨hlog, hrec⟩
  · rename_i url depth rest heq
    split at hstep
    · injection hstep with hstep
      subst hstep
      exact ⟨hlog, hrec⟩
    · split at hstep
      · injection hstep with hstep
        subst hstep
        exact ⟨hlog, hrec⟩
      · rename_i hdom
        have hurl : netloc url ∈ allowed := by
          rcases not_and_or.1 hdom with hc | hc

          · exact absurd hne hc
          · exact not_not.1 hc
        split at hstep
        · cases hstep
        · rename_i result hengine
          dsimp only at hstep
          have hlog1 : ∀ u ∈ st.engine_log ++ [url], netloc u ∈ allowed := by
            intro u hu
            rcases List.mem_append.1 hu with hu | hu
            · exact hlog u hu
            · rw [List.mem_singleton] at hu
              subst hu
              exact hurl
          split at hstep
          · split at hstep
            · cases hstep
            · injection hstep with hstep
              subst hstep
              refine ⟨hlog1, ?_⟩
              intro e he
              rcases List.mem_append.1 he with he | he
              · exact hrec e he
              · rw [List.mem_singleton] at he
                subst he
                exact hurl
          · injection hstep with hstep
            subst hstep
            exact ⟨hlog1, hrec⟩

/-- Domain-filter preservation along a fallback run (C5). -/
theorem simpleRun_domain (engine : Engine) (dw : DiskWrite)
    (maxDepth maxPages : Nat) (allowed : List String) (ts : Nat)
    (hne : allowed ≠ []) :
    ∀ (n : Nat) (st st1 : TravState),
      (∀ u ∈ st.engine_log, netloc u ∈ allowed) →
      (∀ e ∈ st.crawled_urls, netloc e.url ∈ allowed) →
      simpleRun engine dw maxDepth maxPages allowed ts n st = .ok st1 →
      (∀ u ∈ st1.engine_log, netloc u ∈ allowed) ∧
      (∀ e ∈ st1.crawled_urls, netloc e.url ∈ allowed) := by
  intro n
  induction n with
  | zero =>
    intro st st1 hlog hrec h
    injection h with h
    subst h
    exact ⟨hlog, hrec⟩
  | succ n ih =>
    intro st st1 hlog hrec h
    rw [simpleRun] at h
    split at h
    · split at h
      · cases h
      · rename_i st2 hstep
        obtain ⟨hl2, hr2⟩ := simpleStep_domain engine dw maxDepth allowed ts
          st st2 hne hstep hlog hrec
        exact ih st2 st1 hl2 hr2 h
    · injection h with h
      subst h
      exact ⟨hlog, hrec⟩

/-- C5: with a non-empty allowed_domains set, the fallback traversal
never calls the engine on, nor records, a URL whose domain is outside
the set; and on the spec scenario (a.test/ linking to a.test/x and
b.test/y, allowed_domains = a.test, max_depth 1, max_pages 10) it crawls
exactly a.test/ and a.test/x, finishing with an empty frontier, so
b.test/y is never crawled. -/
theorem simple_deep_crawl_domain_filter (engine : Engine) (dw : DiskWrite)
    (store : Store) (start_url : String) (maxDepth maxPages : Nat)
    (allowed : List String) (ts n : Nat) (st : TravState)
    (hne : allowed ≠ [])
    (h : simpleRun engine dw maxDepth maxPages allowed ts n
      (initState start_url store) = .ok st) :
    ((∀ u ∈ st.engine_log, netloc u ∈ allowed) ∧
     (∀ e ∈ st.crawled_urls, netloc e.url ∈ allowed)) ∧
    (simpleRun engA dwOK 1 10 ["a.test"] 0 4
        (initState "https://a.test/" [])).map
        (fun s => (s.engine_log, s.to_visit))
      = .ok (["https://a.test/", "https://a.test/x"], []) := by
  constructor
  · refine simpleRun_domain engine dw maxDepth maxPages allowed ts hne n _ st
      ?_ ?_ h
    · intro u hu
      simp [initState] at hu
    · intro e he
      simp [initState] at he
  · rfl

/-- Witness for C5 at the spec scenario itself. -/
theorem simple_deep_crawl_domain_filter_witness :
    ((∀ u ∈ (⟨[], ["https://a.test/"], [], [], ["https://a.test/"]⟩ :
        TravState).engine_log, netloc u ∈ ["a.test"]) ∧
     (∀ e ∈ (⟨[], ["https://a.test/"], [], [], ["https://a.test/"]⟩ :
        TravState).crawled_urls, netloc e.url ∈ ["a.test"])) ∧
    (simpleRun engA dwOK 1 10 ["a.test"] 0 4
        (initState "https://a.test/" [])).map
        (fun s => (s.engine_log, s.to_visit))
      = .ok (["https://a.test/", "https://a.test/x"], []) :=
  simple_deep_crawl_domain_filter engFail dwOK [] "https://a.test/" 1 10
    ["a.test"] 0 2 ⟨[], ["https://a.test/"], [], [], ["https://a.test/"]⟩
    (by simp) (by rfl)

/-! Frontier push order (C4) and deep_crawl routing (C3). -/

theorem pushLinksBfs_eq_append (links : List Link) (vis : List String)
    (d : Nat) (tv : List (String × Nat)) :
    pushLinksBfs links vis d tv = tv ++ eligibleLinks links vis d := by
  induction links generalizing tv with
  | nil => simp [pushLinksBfs, eligibleLinks]
  | cons l ls ih =>
    have hfold : pushLinksBfs (l :: ls) vis d tv
        = pushLinksBfs ls vis d
          (if l.href ≠ "" ∧ l.href ∉ vis then tv ++ [(l.href, d)] else tv) := by
      simp only [pushLinksBfs, List.foldl_cons]
    rw [hfold, ih]
    by_cases hc : l.href ≠ "" ∧ l.href ∉ vis
    · rw [if_pos hc]
      simp [eligibleLinks, List.filter_cons, hc, List.append_assoc]
    · rw [if_neg hc]
      simp [eligibleLinks, List.filter_cons, hc]

theorem pushLinksStrategy_dfs (links : List Link) (vis : List String)
    (d : Nat) (tv : List (String × Nat)) :
    pushLinksStrategy "dfs" links vis d tv
      = (eligibleLinks links vis d).reverse ++ tv := by
  induction links generalizing tv with
  | nil => simp [pushLinksStrategy, eligibleLinks]
  | cons l ls ih =>
    by_cases hc : l.href ≠ "" ∧ l.href ∉ vis
    · have hfold : pushLinksStrategy "dfs" (l :: ls) vis d tv
          = pushLinksStrategy "dfs" ls vis d ((l.href, d) :: tv) := by
        simp [pushLinksStrategy, List.foldl_cons, hc]
      rw [hfold, ih]
      simp [eligibleLinks, List.filter_cons, hc, List.append_assoc]
    · have hfold : pushLinksStrategy "dfs" (l :: ls) vis d tv
          = pushLinksStrategy "dfs" ls vis d tv := by
        simp [pushLinksStrategy, List.foldl_cons, hc]
      rw [hfold, ih]
      simp [eligibleLinks, List.filter_cons, hc]

theorem pushLinksStrategy_not_dfs (strategy : String) (hs : strategy ≠ "dfs")
    (links : List Link) (vis : List String) (d : Nat)
    (tv : List (String × Nat)) :
    pushLinksStrategy strategy links vis d tv
      = tv ++ eligibleLinks links vis d := by
  induction links generalizing tv with
  | nil => simp [pushLinksStrategy, eligibleLinks]
  | cons l ls ih =>
    by_cases hc : l.href ≠ "" ∧ l.href ∉ vis
    · have hfold : pushLinksStrategy strategy (l :: ls) vis d tv
          = pushLinksStrategy strategy ls vis d (tv ++ [(l.href, d)]) := by
        simp [pushLinksStrategy, List.foldl_cons, hc, hs]
      rw [hfold, ih]
      simp [eligibleLinks, List.filter_cons, hc, List.append_assoc]
    · have hfold : pushLinksStrategy strategy (l :: ls) vis d tv
          = pushLinksStrategy strategy ls vis d tv := by
        simp [pushLinksStrategy, List.foldl_cons, hc]
      rw [hfold, ih]
      simp [eligibleLinks, List.filter_cons, hc]

/-- C4 counterexample: on the same graph, after two iterations under a
"dfs" request, the fallback frontier is the appended (BFS) one and
differs from the frontier of the strategy-directed loop - the fallback
never inserts at the front, whatever strategy was requested (deep_crawl
routes a "dfs" request to simple_deep_crawl all the same when the
strategies are unavailable). -/
theorem fallback_push_counterexample :
    (simpleRun engB dwOK 2 10 [] 0 2 (initState "https://s.test/" [])).map
        (fun s => s.to_visit)
      = .ok [("https://s.test/y", 1), ("https://s.test/z", 2)] ∧
    (deepRun engB dwOK 2 10 "dfs" 0 2 (initState "https://s.test/" [])).map
        (fun s => s.to_visit)
      = .ok [("https://s.test/x", 1)] ∧
    [("https://s.test/y", 1), ("https://s.test/z", 2)]
      ≠ [("https://s.test/x", 1)] :=
  ⟨by rfl, by rfl, by decide⟩

/-- C4 amended: in the strategy-directed loop of deep_crawl, a non-"dfs"
strategy appends the eligible links to the back of the frontier and
"dfs" inserts them one by one at the front (so the block lands reversed);
the fallback traversal always appends, and deep_crawl hands every
strategy, "dfs" included, to the fallback when the library strategies
are unavailable. -/
theorem push_order_strategies (engine : Engine) (dw : DiskWrite)
    (store : Store) (start_url : String) (maxDepth maxPages : Nat)
    (strategy : String) (allowed excl incl kw : List String) (ts fuel : Nat)
    (links : List Link) (vis : List String) (d : Nat)
    (tv : List (String × Nat)) (hs : strategy ≠ "dfs") :
    deep_crawl false engine dw store start_url maxDepth maxPages strategy
        allowed excl incl kw ts fuel
      = (simple_deep_crawl engine dw store start_url maxDepth maxPages
          allowed ts fuel).map pyExcept ∧
    pushLinksBfs links vis d tv = tv ++ eligibleLinks links vis d ∧
    pushLinksStrategy strategy links vis d tv
      = tv ++ eligibleLinks links vis d ∧
    pushLinksStrategy "dfs" links vis d tv
      = (eligibleLinks links vis d).reverse ++ tv :=
  ⟨rfl, pushLinksBfs_eq_append links vis d tv,
   pushLinksStrategy_not_dfs strategy hs links vis d tv,
   pushLinksStrategy_dfs links vis d tv⟩

/-- Witness for C4 amended at concrete inputs. -/
theorem push_order_strategies_witness :
    deep_crawl false engFail dwOK [] "https://a.test/" 1 10 "bfs"
        [] [] [] [] 0 2
      = (simple_deep_crawl engFail dwOK [] "https://a.test/" 1 10 [] 0 2).map
          pyExcept ∧
    pushLinksBfs [⟨"https://u.test/"⟩] [] 1 []
      = [] ++ eligibleLinks [⟨"https://u.test/"⟩] [] 1 ∧
    pushLinksStrategy "bfs" [⟨"https://u.test/"⟩] [] 1 []
      = [] ++ eligibleLinks [⟨"https://u.test/"⟩] [] 1 ∧
    pushLinksStrategy "dfs" [⟨"https://u.test/"⟩] [] 1 []
      = (eligibleLinks [⟨"https://u.test/"⟩] [] 1).reverse ++ [] :=
  push_order_strategies engFail dwOK [] "https://a.test/" 1 10 "bfs"
    [] [] [] [] 0 2 [⟨"https://u.test/"⟩] [] 1 [] (by decide)

/-- C3 counterexample: with the deep-crawling imports available and
allowed_domains = a.test, deep_crawl crawls and reports b.test/y, a URL
the constructed DomainFilter rejects - the constructed strategy object
does not determine which URLs are crawled. -/
theorem deep_crawl_ignores_filters_counterexample :
    (deep_crawl true engC dwOK [] "https://a.test/" 1 10 "bfs" ["a.test"]
        [] [] [] 0 3).map resultUrls
      = some [.str "https://a.test/", .str "https://b.test/y"] ∧
    strategyAdmits (fun _ _ => true)
        (build_strategy "bfs" [] 1 10 ["a.test"] [] []) "https://b.test/y"
      = false :=
  ⟨by rfl, by rfl⟩

/-- C3 amended: deep_crawl routes to the fallback exactly when the
deep-crawling imports are unavailable; when they are available it
constructs the strategy and filter objects but crawls with its inline
loop, whose outcome is independent of allowed_domains, the URL patterns
and the keyword focus (only the strategy string, via the frontier
insertion side, matters). -/
theorem deep_crawl_routing_amended (engine : Engine) (dw : DiskWrite)
    (store : Store) (start_url : String) (maxDepth maxPages : Nat)
    (strategy : String)
    (allowed excl incl kw allowed2 excl2 incl2 kw2 : List String)
    (ts fuel : Nat) :
    deep_crawl false engine dw store start_url maxDepth maxPages strategy
        allowed excl incl kw ts fuel
      = (simple_deep_crawl engine dw store start_url maxDepth maxPages
          allowed ts fuel).map pyExcept ∧
    deep_crawl true engine dw store start_url maxDepth maxPages strategy
        allowed excl incl kw ts fuel
      = deep_crawl true engine dw store start_url maxDepth maxPages strategy
          allowed2 excl2 incl2 kw2 ts fuel :=
  ⟨rfl, rfl⟩

end MCP
